import Mathlib

/-!
Verification development for the `vasp` keyword-expansion and file-writing
subsystem (`src/vasp/setters.py`, `src/vasp/writers.py`).

Python values are embedded as the inductive `Value` (no floats are needed by
any statement below; numeric literals are integers).  Python `dict`s are
embedded as insertion-ordered association lists over `String` keys with the
usual CPython semantics: `d[k] = v` overwrites in place keeping the key's
position, `d.update(e)` folds `dictSet` over `e`, deletion removes the entry.
Fallible Python code (KeyError, TypeError, ValueError, AttributeError) is
embedded with `Except String` or, for the file writers, with a pair
`(chunks written so far, optional error)` so that partially written files are
observable.
-/

/-- Embedded Python value.  `vNone` is Python `None`, which the program also
uses as its removal sentinel. -/
inductive Value where
  | vNone : Value
  | vBool : Bool → Value
  | vInt : Int → Value
  | vStr : String → Value
  | vList : List Value → Value
  | vDict : List (String × Value) → Value

/-- Python `isinstance(v, list/tuple)`-style test used for the k-points shape
dispatch (`len(np.array(kpts).shape) == 1`). -/
def Value.isList : Value → Bool
  | .vList _ => true
  | _ => false

/-- Python `v is None`. -/
def Value.isNoneV : Value → Bool
  | .vNone => true
  | _ => false

/-- ASCII upper-casing, mirroring Python `str.upper()` on the ASCII keyword
names this program uses. -/
def upperStr (s : String) : String := ⟨s.data.map Char.toUpper⟩

/-- ASCII lower-casing, mirroring Python `str.lower()`. -/
def lowerStr (s : String) : String := ⟨s.data.map Char.toLower⟩

/-- The single-quote character, used by Python `repr` of strings. -/
def pyQuote : String := String.singleton (Char.ofNat 39)

/-- Opening brace character of Python `repr` of dicts. -/
def braceL : String := String.singleton (Char.ofNat 123)

/-- Closing brace character of Python `repr` of dicts. -/
def braceR : String := String.singleton (Char.ofNat 125)

mutual
/-- Python `repr(v)` for embedded values (`str` of a container shows the
`repr` of its elements, which is why this is needed by `str`). -/
def pyRepr : Value → String
  | .vNone => "None"
  | .vBool b => cond b "True" "False"
  | .vInt n => toString n
  | .vStr s => pyQuote ++ s ++ pyQuote
  | .vList xs => "[" ++ String.intercalate ", " (pyReprList xs) ++ "]"
  | .vDict xs => braceL ++ String.intercalate ", " (pyReprDict xs) ++ braceR
  termination_by structural v => v
/-- `repr` of the elements of a Python list, in order. -/
def pyReprList : List Value → List String
  | [] => []
  | v :: vs => pyRepr v :: pyReprList vs
  termination_by structural vs => vs
/-- `repr` of the entries of a Python dict, in order. -/
def pyReprDict : List (String × Value) → List String
  | [] => []
  | (k, v) :: vs => (pyQuote ++ k ++ pyQuote ++ ": " ++ pyRepr v) :: pyReprDict vs
  termination_by structural vs => vs
end

/-- Python `str(v)`: strings verbatim, everything else as `repr`. -/
def pyStr : Value → String
  | .vStr s => s
  | v => pyRepr v

/-- Python truthiness (`if v:`). -/
def pyTruthy : Value → Bool
  | .vNone => false
  | .vBool b => b
  | .vInt n => n != 0
  | .vStr s => s != ""
  | .vList [] => false
  | .vList (_ :: _) => true
  | .vDict [] => false
  | .vDict (_ :: _) => true

/-- Numeric view of a value for Python `==` against an int (`True == 1`). -/
def Value.toIntQ : Value → Option Int
  | .vInt n => some n
  | .vBool b => some (cond b 1 0)
  | _ => Option.none

/-- Python `v == n` for an integer literal `n` (covers `bool` promotion). -/
def pyEqInt (v : Value) (n : Int) : Bool :=
  match v.toIntQ with
  | some m => m == n
  | Option.none => false

mutual
/-- Python `==` on the embedded values (numeric promotion between `bool` and
`int`; dict equality is modelled as ordered pairwise equality, which agrees
with Python's key-set-based equality on identically ordered dicts, the only
case exercised below). -/
def pyValEq : Value → Value → Bool
  | .vNone, .vNone => true
  | .vStr a, .vStr b => a == b
  | .vList a, .vList b => pyValEqList a b
  | .vDict a, .vDict b => pyValEqDict a b
  | a, b =>
    match a.toIntQ, b.toIntQ with
    | some x, some y => x == y
    | _, _ => false
  termination_by structural v => v
/-- Elementwise Python `==` on lists. -/
def pyValEqList : List Value → List Value → Bool
  | [], [] => true
  | a :: as, b :: bs => pyValEq a b && pyValEqList as bs
  | _, _ => false
  termination_by structural vs => vs
/-- Ordered pairwise Python `==` on dict entries. -/
def pyValEqDict : List (String × Value) → List (String × Value) → Bool
  | [], [] => true
  | (k, a) :: as, (l, b) :: bs => k == l && pyValEq a b && pyValEqDict as bs
  | _, _ => false
  termination_by structural vs => vs
end

/-- Python `==` on optional values: two absences are equal, an absence never
equals a present value. -/
def optValEq : Option Value → Option Value → Bool
  | Option.none, Option.none => true
  | some a, some b => pyValEq a b
  | _, _ => false

/-- An insertion-ordered Python dict with string keys. -/
abbrev Assoc := List (String × Value)

/-- Python `d.get(key)` / `d[key]` lookup on the ordered dict. -/
def alookup : Assoc → String → Option Value
  | [], _ => Option.none
  | (k, v) :: rest, key => if k = key then some v else alookup rest key

/-- Python `key in d`. -/
def hasKey (d : Assoc) (k : String) : Bool := (alookup d k).isSome

/-- Python `d[key] = v`: overwrite in place, else append. -/
def dictSet : Assoc → String → Value → Assoc
  | [], key, v => [(key, v)]
  | (k, w) :: rest, key, v =>
    if k = key then (k, v) :: rest else (k, w) :: dictSet rest key v

/-- Python `del d[key]` (identity when the key is absent). -/
def dictDel : Assoc → String → Assoc
  | [], _ => []
  | (k, w) :: rest, key => if k = key then rest else (k, w) :: dictDel rest key

/-- Python `d.update(e)`: fold `d[k] = v` over `e` in order. -/
def dictUpdate : Assoc → Assoc → Assoc
  | d, [] => d
  | d, kv :: rest => dictUpdate (dictSet d kv.1 kv.2) rest

/-- Python `' '.join(map(str, v))`: joins the elements of a list, the
characters of a string, or the keys of a dict; `TypeError` otherwise. -/
def pyJoinSpace : Value → Except String String
  | .vList xs => .ok (String.intercalate " " (xs.map pyStr))
  | .vStr s => .ok (String.intercalate " " (s.data.map String.singleton))
  | .vDict xs => .ok (String.intercalate " " (xs.map Prod.fst))
  | _ => .error "TypeError: not iterable"

/-- Total variant of `pyJoinSpace` for use in theorem statements where a
hypothesis already guarantees joinability. -/
def pyJoinStrD (v : Value) : String := ((pyJoinSpace v).toOption).getD ""

/-- Python `len(v)` (`TypeError` on non-sized values). -/
def pyLen : Value → Except String Int
  | .vList xs => .ok xs.length
  | .vStr s => .ok s.length
  | .vDict xs => .ok xs.length
  | _ => .error "TypeError: object has no len"

/-- External collaborators of the two source modules, fixed per calculator
instance:
`xcdef` is `vasp.Vasp.xc_defaults` (defined in `vasp.py`, which is not under
`src/`; it is kept abstract and the theorems quantify over it);
`atomsMagmoms` is the list `[atom.magmom for atom in self.atoms[self.resort]]`
read by `set_ispin_dict`;
`pppSyms` is the species-symbol column of `self.ppp_list`. -/
structure Env where
  xcdef : String → Option Assoc
  atomsMagmoms : List Value
  pppSyms : List String

/- ------------------------------------------------------------------ -/
/- setters.py                                                         -/
/- ------------------------------------------------------------------ -/

/-- `setters.py::set_ispin_dict` (lines 47-77).  Embeds the `if val is None /
elif val == 1 / elif val == 2` chain; any other value falls off the end of the
Python function, which returns `None`, embedded as `Option.none`. -/
def set_ispin_dict (env : Env) (params : Assoc) (val : Value) : Option Assoc :=
  if val.isNoneV then
    some ((["ispin", "magmom", "lorbit"].filter (fun k => hasKey params k)).map
      (fun k => (k, Value.vNone)))
  else if pyEqInt val 1 then
    some ([("ispin", Value.vInt 1)]
      ++ (if hasKey params "magmom" then [("magmom", Value.vNone)] else [])
      ++ (if hasKey params "lorbit" then [("lorbit", Value.vNone)] else []))
  else if pyEqInt val 2 then
    some ([("ispin", Value.vInt 2)]
      ++ (if hasKey params "magmom" then []
          else [("magmom", Value.vList env.atomsMagmoms)])
      ++ (if hasKey params "lorbit" then [] else [("lorbit", Value.vInt 11)]))
  else Option.none

/-- Per-symbol lookup `val[sym][field]` used by `set_ldau_luj_dict`. -/
def lujLookup (val : Value) (sym field : String) : Except String Value :=
  match val with
  | .vDict d =>
    match alookup d sym with
    | some (.vDict sub) =>
      match alookup sub field with
      | some x => .ok x
      | Option.none => .error ("KeyError: " ++ field)
    | some _ => .error "TypeError: not subscriptable"
    | Option.none => .error ("KeyError: " ++ sym)
  | _ => .error "TypeError: not subscriptable"

/-- One per-species column `[val[sym][field] for sym in atom_types]`. -/
def lujColumn (val : Value) (field : String) : List String → Except String (List Value)
  | [] => .ok []
  | sym :: rest =>
    match lujLookup val sym field with
    | .ok x =>
      match lujColumn val field rest with
      | .ok xs => .ok (x :: xs)
      | .error e => .error e
    | .error e => .error e

/-- `setters.py::set_ldau_luj_dict` (lines 95-121).  The `setups` conflict is
checked first; `atom_types` is `env.pppSyms` (the `ppp_list` symbols, already
memoized on the calculator as the source assumes after its `hasattr` guard). -/
def set_ldau_luj_dict (env : Env) (params : Assoc) (val : Value) :
    Except String Assoc :=
  if hasKey params "setups" then
    .error "setups and ldau_luj is not supported."
  else if val.isNoneV then
    .ok [("ldaul", Value.vNone), ("ldauu", Value.vNone), ("ldauj", Value.vNone)]
  else
    match lujColumn val "L" env.pppSyms with
    | .error e => .error e
    | .ok ls =>
      match lujColumn val "U" env.pppSyms with
      | .error e => .error e
      | .ok us =>
        match lujColumn val "J" env.pppSyms with
        | .error e => .error e
        | .ok js =>
          .ok [("ldaul", Value.vList ls), ("ldauu", Value.vList us),
               ("ldauj", Value.vList js)]

/-- `setters.py::set_nsw_dict` (lines 145-162): `lwave` is `True` exactly when
`nsw > 0` (both the `== 0` and the negative branch set it to `False`). -/
def set_nsw_dict (val : Value) : Except String Assoc :=
  match val.toIntQ with
  | some n => .ok [("nsw", val), ("lwave", Value.vBool (n > 0))]
  | Option.none => .error "TypeError: not comparable to int"

/-- The removal loop of `set_xc_dict`: `for key in xc_defaults[oxc.lower()]:
if key in self.parameters: d[key] = None`, folding over the old defaults row
in order. -/
def xcRemovals (params : Assoc) : Assoc → Assoc → Assoc
  | [], d => d
  | kv :: rest, d =>
    xcRemovals params rest
      (if hasKey params kv.1 then dictSet d kv.1 Value.vNone else d)

/-- `setters.py::set_xc_dict` (lines 165-179).  `d = {'xc': val}`, then the
removal loop for the previous (truthy) `xc`, then `d.update(xc_defaults[
val.lower()])`.  Missing table rows are `KeyError`s, non-string method names
fail on `.lower()`. -/
def set_xc_dict (env : Env) (params : Assoc) (val : Value) :
    Except String Assoc :=
  match val with
  | .vStr s =>
    let d0 : Assoc := [("xc", val)]
    let oxc := (alookup params "xc").getD Value.vNone
    let step : Except String Assoc :=
      if pyTruthy oxc then
        match oxc with
        | .vStr o =>
          match env.xcdef (lowerStr o) with
          | some row => .ok (xcRemovals params row d0)
          | Option.none => .error ("KeyError: " ++ lowerStr o)
        | _ => .error "AttributeError: lower"
      else .ok d0
    match step with
    | .ok d1 =>
      match env.xcdef (lowerStr s) with
      | some row => .ok (dictUpdate d1 row)
      | Option.none => .error ("KeyError: " ++ lowerStr s)
    | .error e => .error e
  | _ => .error "AttributeError: lower"

/-- One store update `d[k] = v` / `del d[k]`-on-sentinel. -/
def applyOne (d : Assoc) (kv : String × Value) : Assoc :=
  if kv.2.isNoneV then dictDel d kv.1 else dictSet d kv.1 kv.2

/-- Fold of `applyOne` over the merged kwargs, in order. -/
def applyAll : Assoc → Assoc → Assoc
  | d, [] => d
  | d, kv :: rest => applyAll (applyOne d kv) rest

/-- Modelled from the spec: `FileIOCalculator.set` (the ChangeReconciler's
apply step, section 4.2), which lives in the external `ase` package and not
under `src/`.  Every key of the merged map is applied to the store (a
removal-sentinel value deletes the key if present, a no-op if absent; any
other value overwrites or creates the key), and the ChangeSet is the list of
applied keys whose final value differs from the pre-call value. -/
def applyParams (params kw : Assoc) : Assoc × List String :=
  let newP := applyAll params kw
  (newP, (kw.map Prod.fst).filter
    (fun k => !optValEq (alookup params k) (alookup newP k)))

/-- `setters.py::set` (lines 17-44): the four macro keywords are expanded in
the fixed order `xc`, `ispin`, `ldau_luj`, `nsw`, each expander's output
merged into the kwargs with `dict.update` before the merged map is applied.
`set_ispin_dict` returning Python `None` makes `kwargs.update(None)` raise
`TypeError`.  The trailing `self.reset()` invalidation is an external side
effect outside this embedding. -/
def Vasp.set (env : Env) (params kwargs : Assoc) :
    Except String (Assoc × List String) :=
  let step1 : Except String Assoc :=
    if hasKey kwargs "xc" then
      match set_xc_dict env params ((alookup kwargs "xc").getD Value.vNone) with
      | .ok d => .ok (dictUpdate kwargs d)
      | .error e => .error e
    else .ok kwargs
  match step1 with
  | .error e => .error e
  | .ok k1 =>
    let step2 : Except String Assoc :=
      if hasKey k1 "ispin" then
        match set_ispin_dict env params ((alookup k1 "ispin").getD Value.vNone) with
        | some d => .ok (dictUpdate k1 d)
        | Option.none => .error "TypeError: NoneType object is not iterable"
      else .ok k1
    match step2 with
    | .error e => .error e
    | .ok k2 =>
      let step3 : Except String Assoc :=
        if hasKey k2 "ldau_luj" then
          match set_ldau_luj_dict env params
              ((alookup k2 "ldau_luj").getD Value.vNone) with
          | .ok d => .ok (dictUpdate k2 d)
          | .error e => .error e
        else .ok k2
      match step3 with
      | .error e => .error e
      | .ok k3 =>
        let step4 : Except String Assoc :=
          if hasKey k3 "nsw" then
            match set_nsw_dict ((alookup k3 "nsw").getD Value.vNone) with
            | .ok d => .ok (dictUpdate k3 d)
            | .error e => .error e
          else .ok k3
        match step4 with
        | .error e => .error e
        | .ok k4 => .ok (applyParams params k4)

/- ------------------------------------------------------------------ -/
/- writers.py                                                         -/
/- ------------------------------------------------------------------ -/

/-- Per-species column `str(val[x[0]]) for x in self.ppp_list` of the RWIGS
special case in `write_incar`. -/
def rwigsVals (d : Assoc) : List String → Except String (List Value)
  | [] => .ok []
  | sym :: rest =>
    match alookup d sym with
    | some x =>
      match rwigsVals d rest with
      | .ok xs => .ok (x :: xs)
      | .error e => .error e
    | Option.none => .error ("KeyError: " ++ sym)

/-- The value rendering of the non-RWIGS `elif` chain of `write_incar`
(lines 192-200): booleans as `.TRUE.`/`.FALSE.`, strings verbatim, iterables
(lists, and dicts via their keys) space-joined, other scalars via `str`. -/
def incarValStr : Value → String
  | .vBool b => cond b ".TRUE." ".FALSE."
  | .vStr s => s
  | .vList xs => String.intercalate " " (xs.map pyStr)
  | .vDict xs => String.intercalate " " (xs.map Prod.fst)
  | v => pyStr v

/-- One directive of `writers.py::write_incar` (lines 180-200): `None` values
are skipped, the key renders upper-cased with one leading space (the source
writes `key = ' ' + key.upper()` and compares that with `' RWIGS'`, which is
the same as comparing the upper-cased key with `RWIGS`), and the RWIGS key is
rendered per species from `ppp_list` instead of by the type-directed chain. -/
def incarEntry (ppp : List String) (k : String) (v : Value) :
    Except String (Option String) :=
  match v with
  | .vNone => .ok Option.none
  | v =>
    if upperStr k = "RWIGS" then
      match v with
      | .vDict d =>
        match rwigsVals d ppp with
        | .ok vals =>
          .ok (some (" " ++ upperStr k ++ " = "
            ++ String.intercalate " " (vals.map pyStr) ++ "\n"))
        | .error e => .error e
      | _ => .error "TypeError: not subscriptable"
    else
      .ok (some (" " ++ upperStr k ++ " = " ++ incarValStr v ++ "\n"))

/-- The directive loop of `write_incar`, accumulating the chunks passed to
`f.write` and stopping at the first uncaught exception. -/
def incarGo (ppp : List String) (params : Assoc) (acc : List String) :
    List String → List String × Option String
  | [] => (acc, Option.none)
  | k :: rest =>
    match incarEntry ppp k ((alookup params k).getD Value.vNone) with
    | .ok Option.none => incarGo ppp params acc rest
    | .ok (some line) => incarGo ppp params (acc ++ [line]) rest
    | .error e => (acc, some e)

/-- `writers.py::write_incar` (lines 162-200).  The source iterates
`list(set(self.parameters) - set(self.special_kwargs))`: the iteration order
of a Python `set` of strings, which depends on the per-process string hash
seed and is unrelated to the store's insertion order.  That order is
therefore a parameter `order` here (a permutation of the store's non-special
keys); `special_kwargs` itself is defined in `vasp.py`, outside `src/`. -/
def write_incar (order : List String) (params : Assoc) (ppp : List String) :
    List String × Option String :=
  incarGo ppp params ["INCAR created by Atomic Simulation Environment\n"] order

/-- `NKPTS` of `writers.py::write_kpoints` (lines 233-240): `None` when
`kpts` is absent (or stored as `None`), `0` when `np.array(kpts)` is
one-dimensional (a flat list), else `len(p['kpts'])`.  Strings and dicts have
a zero-dimensional array shape, so they fall into the `len` branch. -/
def kptsCount (p : Assoc) : Except String (Option Int) :=
  match alookup p "kpts" with
  | Option.none => .ok Option.none
  | some .vNone => .ok Option.none
  | some (.vList xs) =>
    if xs.all (fun x => !x.isList) then .ok (some 0)
    else .ok (some (xs.length : Int))
  | some (.vStr s) => .ok (some (s.length : Int))
  | some (.vDict xs) => .ok (some (xs.length : Int))
  | some _ => .error "TypeError: object has no len"

/-- The mode letter of `write_kpoints` (lines 242-254).  The letter `k` is
never assigned by the source, so it is omitted. -/
inductive KMode where
  | g | m | l | r | c

/-- Mode selection of `write_kpoints` (lines 242-254): automatic (`g`/`m`)
exactly when `NKPTS == 0`, else line mode when `kpts_nintersections` is not
`None`, else reciprocal when the `reciprocal` value compares `== True`
(Python `==`, so `1` also matches), else cartesian. -/
def kmode (p : Assoc) (nk : Option Int) : KMode :=
  if nk = some 0 then
    (if pyTruthy ((alookup p "gamma").getD Value.vNone) then .g else .m)
  else if !((alookup p "kpts_nintersections").getD Value.vNone).isNoneV then .l
  else if pyEqInt ((alookup p "reciprocal").getD Value.vNone) 1 then .r
  else .c

/-- `'{}'.format(NKPTS)`: Python formats `None` as the text `None`. -/
def fmtOptInt : Option Int → String
  | Option.none => "None"
  | some n => toString n

/-- The final point loop of `write_kpoints` (lines 298-300): one `f.write`
per entry of `points`, each entry space-joined by `str`. -/
def emitPoints (acc : List String) : List Value → List String × Option String
  | [] => (acc, Option.none)
  | v :: rest =>
    match pyJoinSpace v with
    | .ok s => emitPoints (acc ++ [s ++ "\n"]) rest
    | .error e => (acc, some e)

/-- `writers.py::write_kpoints` (lines 203-300), as the list of chunks passed
to `f.write` plus the uncaught exception, if any.  Note that the source
builds `points` by APPENDING the whole `p['kpts']` list as a single element
(line 287), so in the `c`/`r` branch the weight validation on line 288
measures `len(p['kpts'])` itself and the loop writes a single line. -/
def write_kpoints (p : Assoc) : List String × Option String :=
  match kptsCount p with
  | .error e => ([], some e)
  | .ok nk =>
    let mode := kmode p nk
    let l2 := match mode with
      | .l => pyStr ((alookup p "kpts_nintersections").getD Value.vNone) ++ "\n"
      | _ => fmtOptInt nk ++ "\n"
    let l3 := match mode with
      | .m => "Monkhorst-Pack\n"
      | .g => "Gamma\n"
      | .c => "Cartesian\n"
      | .l => "Line-mode\n"
      | .r => "Reciprocal\n"
    let acc := ["KPOINTS created by Atomic Simulation Environment\n", l2, l3]
    match mode with
    | .m | .g =>
      let grid := (alookup p "kpts").getD
        (Value.vList [Value.vInt 1, Value.vInt 1, Value.vInt 1])
      let gam := (alookup p "gamma").getD Value.vNone
      let shift := if pyTruthy gam then gam
        else Value.vList [Value.vStr "0.0", Value.vStr "0.0", Value.vStr "0.0"]
      emitPoints acc [grid, shift]
    | .c | .r =>
      match alookup p "kpts" with
      | Option.none => (acc, some "KeyError: kpts")
      | some kv =>
        match pyLen kv with
        | .error e => (acc, some e)
        | .ok n =>
          if n ≠ 4 then
            (acc, some "ValueError: Kpoint ERROR: weights must be provided")
          else emitPoints acc [kv]
    | .l =>
      let l4 := if pyTruthy ((alookup p "reciprocal").getD Value.vNone)
        then "Reciprocal\n" else "Cartesian\n"
      match alookup p "kpts" with
      | Option.none => (acc ++ [l4], some "KeyError: kpts")
      | some kv => emitPoints (acc ++ [l4]) [kv]

/- ------------------------------------------------------------------ -/
/- Claim-side definitions and concrete fixtures                       -/
/- ------------------------------------------------------------------ -/

/-- The per-value INCAR rendering as worded by the spec's claim (booleans as
the two fixed tokens, strings verbatim, any other iterable space-joined in
order — for a dict, Python iteration yields its keys — and other scalars via
their natural text representation).  Written from the claim for comparison
against the source-derived `incarEntry`. -/
def claimRender : Value → String
  | .vBool b => cond b ".TRUE." ".FALSE."
  | .vStr s => s
  | .vList xs => String.intercalate " " (xs.map pyStr)
  | .vDict xs => String.intercalate " " (xs.map Prod.fst)
  | v => pyStr v

/-- The full directive line prescribed by the claim: `None` values omitted,
otherwise one line `" KEY = value"` with the key upper-cased. -/
def claimLine (k : String) (v : Value) : Option String :=
  match v with
  | .vNone => Option.none
  | v => some (" " ++ upperStr k ++ " = " ++ claimRender v ++ "\n")

/-- Environment with no xc table, no atoms magmoms and no species. -/
def envEmpty : Env := ⟨fun _ => Option.none, [], []⟩

/-- Environment whose structure carries a single atom of magnetic moment 1
(the value `set_ispin_dict` derives `magmom` from). -/
def envMagmom : Env := ⟨fun _ => Option.none, [Value.vInt 1], []⟩

/-- The kwargs `set(ispin=2, magmom=[2])`. -/
def kwIspinMagmom : Assoc :=
  [("ispin", Value.vInt 2), ("magmom", Value.vList [Value.vInt 2])]

/-- The store produced by the first `set(ispin=2, magmom=[2])` call on an
empty store with `envMagmom`: the expander output clobbers the explicit
`magmom` keyword, so the stored moments are the atoms-derived `[1]`. -/
def storeAfter1 : Assoc :=
  [("ispin", Value.vInt 2), ("magmom", Value.vList [Value.vInt 1]),
   ("lorbit", Value.vInt 11)]

/-- A two-row xc defaults table (`lda` and `pbe`, as in the engine's real
table) for the concrete `set_xc_dict` witness. -/
def envXc : Env :=
  ⟨fun s =>
    if s = "pbe" then some [("pp", Value.vStr "PBE")]
    else if s = "lda" then some [("pp", Value.vStr "LDA")]
    else Option.none, [], []⟩

/- ------------------------------------------------------------------ -/
/- Ordered-dict lemmas                                                -/
/- ------------------------------------------------------------------ -/

theorem alookup_dictSet_self (d : Assoc) (k : String) (v : Value) :
    alookup (dictSet d k v) k = some v := by
  induction d with
  | nil => simp [dictSet, alookup]
  | cons kv rest ih =>
    obtain ⟨k0, w⟩ := kv
    by_cases h : k0 = k
    · simp [dictSet, h, alookup]
    · simp [dictSet, h, alookup, ih]

theorem alookup_dictSet_ne (d : Assoc) (k k' : String) (v : Value)
    (h : k ≠ k') : alookup (dictSet d k v) k' = alookup d k' := by
  induction d with
  | nil => simp [dictSet, alookup, h]
  | cons kv rest ih =>
    obtain ⟨k0, w⟩ := kv
    by_cases h0 : k0 = k
    · subst h0
      simp [dictSet, alookup, h]
    · simp [dictSet, h0, alookup, ih]

theorem alookup_dictUpdate_not_mem (d e : Assoc) (k : String)
    (h : ∀ kv ∈ e, kv.1 ≠ k) :
    alookup (dictUpdate d e) k = alookup d k := by
  induction e generalizing d with
  | nil => rfl
  | cons kv rest ih =>
    rw [dictUpdate]
    rw [ih (dictSet d kv.1 kv.2) (fun x hx => h x (List.mem_cons_of_mem _ hx))]
    exact alookup_dictSet_ne _ _ _ _ (h kv (List.mem_cons_self _ _))


theorem alookup_dictUpdate_mem (d e : Assoc) (k : String) (v : Value)
    (hnd : (e.map Prod.fst).Nodup) (h : alookup e k = some v) :
    alookup (dictUpdate d e) k = some v := by
  induction e generalizing d with
  | nil => simp [alookup] at h
  | cons kv rest ih =>
    obtain ⟨k0, w⟩ := kv
    rw [dictUpdate]
    simp only [List.map_cons, List.nodup_cons] at hnd
    by_cases hk : k0 = k
    · subst hk
      have hv : w = v := by simpa [alookup] using h
      subst hv
      rw [alookup_dictUpdate_not_mem _ _ _
        (fun x hx hx1 => hnd.1 (by rw [← hx1]; exact List.mem_map_of_mem Prod.fst hx))]
      exact alookup_dictSet_self d k0 w
    · have h' : alookup rest k = some v := by simpa [alookup, hk] using h
      exact ih (dictSet d k0 w) hnd.2 h'

theorem alookup_xcRemovals_not_mem (params : Assoc) (row d : Assoc)
    (k : String) (h : ∀ kv ∈ row, kv.1 ≠ k) :
    alookup (xcRemovals params row d) k = alookup d k := by
  induction row generalizing d with
  | nil => rfl
  | cons kv rest ih =>
    rw [xcRemovals]
    rw [ih _ (fun x hx => h x (List.mem_cons_of_mem _ hx))]
    by_cases hp : hasKey params kv.1
    · rw [if_pos hp]
      exact alookup_dictSet_ne _ _ _ _ (h kv (List.mem_cons_self _ _))
    · rw [if_neg hp]

theorem alookup_xcRemovals_none (params : Assoc) (row d : Assoc) (k : String)
    (h : alookup d k = some Value.vNone ∨
      (k ∈ row.map Prod.fst ∧ hasKey params k = true)) :
    alookup (xcRemovals params row d) k = some Value.vNone := by
  induction row generalizing d with
  | nil =>
    rcases h with h | ⟨hm, _⟩
    · exact h
    · simp at hm
  | cons kv rest ih =>
    rw [xcRemovals]
    obtain ⟨k0, w⟩ := kv
    rcases h with h | ⟨hm, hp⟩
    · refine ih _ (Or.inl ?_)
      by_cases hk : k0 = k
      · subst hk
        by_cases hp0 : hasKey params k0
        · simp only [if_pos hp0]
          exact alookup_dictSet_self d k0 Value.vNone
        · simp only [if_neg hp0]
          exact h
      · by_cases hp0 : hasKey params k0
        · simp only [if_pos hp0]
          rw [alookup_dictSet_ne _ _ _ _ hk]
          exact h
        · simp only [if_neg hp0]
          exact h
    · simp only [List.map_cons, List.mem_cons] at hm
      rcases hm with hm | hm
      · subst hm
        refine ih _ (Or.inl ?_)
        simp only [if_pos hp]
        exact alookup_dictSet_self d k Value.vNone
      · exact ih _ (Or.inr ⟨hm, hp⟩)

/- ------------------------------------------------------------------ -/
/- Claim theorems                                                     -/
/- ------------------------------------------------------------------ -/

/-- Claim C4: for every store holding a previous (truthy) `xc` value `old`
and every new method `new` whose lower-cased names both have rows in the
defaults table, `set_xc_dict` returns a map that assigns the removal sentinel
to every parameter implied by `old`'s defaults row that is currently present
in the store except those also implied by `new`'s row (which receive `new`'s
values), contains every assignment of `new`'s row, and maps `xc` to `new`.
The defaults table (`vasp.Vasp.xc_defaults`, defined outside `src/`) is
quantified over; as in the engine's real table, its rows are assumed not to
use the key `xc` itself and to have distinct keys. -/
theorem set_xc_dict_spec (env : Env) (params : Assoc) (old new : String)
    (oldrow newrow : Assoc)
    (hold : alookup params "xc" = some (Value.vStr old))
    (hne : old ≠ "")
    (ho : env.xcdef (lowerStr old) = some oldrow)
    (hn : env.xcdef (lowerStr new) = some newrow)
    (hnodup : (newrow.map Prod.fst).Nodup)
    (hxc1 : "xc" ∉ oldrow.map Prod.fst)
    (hxc2 : "xc" ∉ newrow.map Prod.fst) :
    ∃ d, set_xc_dict env params (Value.vStr new) = .ok d ∧
      (∀ k v, alookup newrow k = some v → alookup d k = some v) ∧
      (∀ k, k ∈ oldrow.map Prod.fst → hasKey params k = true →
        k ∉ newrow.map Prod.fst → alookup d k = some Value.vNone) ∧
      alookup d "xc" = some (Value.vStr new) := by
  have hox : (alookup params "xc").getD Value.vNone = Value.vStr old := by
    rw [hold]; rfl
  have htr : pyTruthy (Value.vStr old) = true := by
    simp only [pyTruthy, bne_iff_ne, ne_eq]
    exact hne
  refine ⟨dictUpdate (xcRemovals params oldrow [("xc", Value.vStr new)]) newrow,
    ?_, ?_, ?_, ?_⟩
  · simp only [set_xc_dict, hox, htr, if_true, ho, hn]
  · intro k v hv
    exact alookup_dictUpdate_mem _ newrow k v hnodup hv
  · intro k hmo hpk hmn
    rw [alookup_dictUpdate_not_mem _ _ _
      (fun x hx hx1 => hmn (by rw [← hx1]; exact List.mem_map_of_mem Prod.fst hx))]
    exact alookup_xcRemovals_none params oldrow _ k (Or.inr ⟨hmo, hpk⟩)
  · rw [alookup_dictUpdate_not_mem _ _ _
      (fun x hx hx1 => hxc2 (by rw [← hx1]; exact List.mem_map_of_mem Prod.fst hx))]
    rw [alookup_xcRemovals_not_mem params oldrow _ "xc"
      (fun x hx hx1 => hxc1 (by rw [← hx1]; exact List.mem_map_of_mem Prod.fst hx))]
    rfl

/-- Witness for C4: switching from `xc='LDA'` (whose defaults row sets `pp`)
to `'pbe'` on a store `{xc: 'LDA', pp: 'LDA'}` with the two-row table. -/
theorem set_xc_dict_spec_witness :
    ∃ d, set_xc_dict envXc [("xc", Value.vStr "LDA"), ("pp", Value.vStr "LDA")]
        (Value.vStr "pbe") = .ok d ∧
      (∀ k v, alookup [("pp", Value.vStr "PBE")] k = some v →
        alookup d k = some v) ∧
      (∀ k, k ∈ ([("pp", Value.vStr "LDA")] : Assoc).map Prod.fst →
        hasKey [("xc", Value.vStr "LDA"), ("pp", Value.vStr "LDA")] k = true →
        k ∉ ([("pp", Value.vStr "PBE")] : Assoc).map Prod.fst →
        alookup d k = some Value.vNone) ∧
      alookup d "xc" = some (Value.vStr "pbe") :=
  set_xc_dict_spec envXc [("xc", Value.vStr "LDA"), ("pp", Value.vStr "LDA")]
    "LDA" "pbe" [("pp", Value.vStr "LDA")] [("pp", Value.vStr "PBE")]
    rfl (by decide) rfl rfl (by decide) (by decide) (by decide)

/-- Claim C1 (the code contradicts it): even a cartesian k-point list whose
every entry carries exactly 4 fields raises the weight `ValueError` whenever
the NUMBER of points differs from 4, because `write_kpoints` appends the
whole `p['kpts']` list to `points` as a single element, so the line-288 check
`any(len(point) != 4 for point in points)` measures `len(p['kpts'])`.
Conversely a list of 4 malformed 3-field points raises nothing.  The first
conjunct evaluates the writer on two well-formed 4-field points (error after
the three header lines); the second on four 3-field points (no error). -/
theorem kpoints_weight_validation_bug :
    write_kpoints [("kpts", Value.vList
        [Value.vList [Value.vInt 0, Value.vInt 0, Value.vInt 0, Value.vInt 1],
         Value.vList [Value.vInt 1, Value.vInt 0, Value.vInt 0, Value.vInt 1]])] =
      (["KPOINTS created by Atomic Simulation Environment\n", "2\n", "Cartesian\n"],
       some "ValueError: Kpoint ERROR: weights must be provided") ∧
    (write_kpoints [("kpts", Value.vList
        [Value.vList [Value.vInt 0, Value.vInt 0, Value.vInt 0],
         Value.vList [Value.vInt 1, Value.vInt 0, Value.vInt 0],
         Value.vList [Value.vInt 2, Value.vInt 0, Value.vInt 0],
         Value.vList [Value.vInt 3, Value.vInt 0, Value.vInt 0]])]).2 =
      Option.none :=
  ⟨rfl, rfl⟩

/-- Claim C2 (the code contradicts it): for four well-formed 4-field points
(the only count that passes the buggy validation of C1), `write_kpoints`
writes the count line `4` and the `Cartesian` format line but then a SINGLE
coordinate line containing the `str()` of every point, not one line per
point, because the whole `p['kpts']` list was appended to `points` as one
element. -/
theorem kpoints_single_point_line_bug :
    write_kpoints [("kpts", Value.vList
        [Value.vList [Value.vInt 0, Value.vInt 0, Value.vInt 0, Value.vInt 1],
         Value.vList [Value.vInt 1, Value.vInt 0, Value.vInt 0, Value.vInt 1],
         Value.vList [Value.vInt 2, Value.vInt 0, Value.vInt 0, Value.vInt 1],
         Value.vList [Value.vInt 3, Value.vInt 0, Value.vInt 0, Value.vInt 1]])] =
      (["KPOINTS created by Atomic Simulation Environment\n", "4\n", "Cartesian\n",
        "[0, 0, 0, 1] [1, 0, 0, 1] [2, 0, 0, 1] [3, 0, 0, 1]\n"],
       Option.none) :=
  rfl

/-- Claim C3: for a one-dimensional `kpts` triple, `write_kpoints` writes
count `0`, the format line `Gamma` when the `gamma` flag is truthy and
`Monkhorst-Pack` otherwise, one line with the three grid values, and one
shift line holding the `gamma` value when provided and truthy, else three
`0.0` literals; no error is raised.  `gamma`, when present, is a flat list
(the only shape the shift line accepts). -/
theorem write_kpoints_automatic (p : Assoc) (x y z g : Value)
    (hk : alookup p "kpts" = some (Value.vList [x, y, z]))
    (hx : x.isList = false) (hy : y.isList = false) (hz : z.isList = false)
    (hg : (alookup p "gamma").getD Value.vNone = g)
    (hgs : g = Value.vNone ∨ ∃ ys, g = Value.vList ys) :
    write_kpoints p =
      (["KPOINTS created by Atomic Simulation Environment\n", "0\n",
        (if pyTruthy g then "Gamma\n" else "Monkhorst-Pack\n"),
        String.intercalate " " [pyStr x, pyStr y, pyStr z] ++ "\n",
        (if pyTruthy g then pyJoinStrD g else "0.0 0.0 0.0") ++ "\n"],
       Option.none) := by
  have hc : kptsCount p = .ok (some 0) := by
    simp [kptsCount, hk, hx, hy, hz]
  have hm : kmode p (some 0) = (if pyTruthy g then KMode.g else KMode.m) := by
    simp [kmode, hg]
  rcases hgs with hgn | ⟨ys, hys⟩
  · subst hgn
    simp [write_kpoints, hc, hm, pyTruthy, fmtOptInt, hk, hg, emitPoints,
      pyJoinSpace, pyJoinStrD]
    exact ⟨rfl, rfl⟩
  · subst hys
    cases ys with
    | nil =>
      simp [write_kpoints, hc, hm, pyTruthy, fmtOptInt, hk, hg, emitPoints,
        pyJoinSpace, pyJoinStrD]
      exact ⟨rfl, rfl⟩
    | cons a ys' =>
      simp [write_kpoints, hc, hm, pyTruthy, fmtOptInt, hk, hg, emitPoints,
        pyJoinSpace, pyJoinStrD]
      exact ⟨rfl, rfl⟩

/-- Witness for C3, gamma-centered case: `kpts=[6,6,6]`, `gamma=[1,0,0]`. -/
theorem write_kpoints_automatic_witness :
    write_kpoints [("kpts", Value.vList [Value.vInt 6, Value.vInt 6, Value.vInt 6]),
        ("gamma", Value.vList [Value.vInt 1, Value.vInt 0, Value.vInt 0])] =
      (["KPOINTS created by Atomic Simulation Environment\n", "0\n", "Gamma\n",
        "6 6 6\n", "1 0 0\n"], Option.none) :=
  write_kpoints_automatic _ (Value.vInt 6) (Value.vInt 6) (Value.vInt 6)
    (Value.vList [Value.vInt 1, Value.vInt 0, Value.vInt 0])
    rfl rfl rfl rfl rfl
    (Or.inr ⟨[Value.vInt 1, Value.vInt 0, Value.vInt 0], rfl⟩)

/-- Claim C10: when `kpts` is absent and neither `kpts_nintersections` nor a
`== True` `reciprocal` flag is set, `write_kpoints` selects the cartesian
branch, writes `None` as the count line and `Cartesian` as the format line,
and then fails with an uncaught `KeyError` on `p['kpts']`, leaving the three
already-written lines behind. -/
theorem write_kpoints_missing_kpts (p : Assoc)
    (hk : alookup p "kpts" = Option.none)
    (hni : ((alookup p "kpts_nintersections").getD Value.vNone).isNoneV = true)
    (hr : pyEqInt ((alookup p "reciprocal").getD Value.vNone) 1 = false) :
    write_kpoints p =
      (["KPOINTS created by Atomic Simulation Environment\n", "None\n",
        "Cartesian\n"],
       some "KeyError: kpts") := by
  have hc : kptsCount p = .ok Option.none := by simp [kptsCount, hk]
  have hm : kmode p Option.none = KMode.c := by simp [kmode, hni, hr]
  simp [write_kpoints, hc, hm, fmtOptInt, hk]

/-- Witness for C10: the empty parameter store. -/
theorem write_kpoints_missing_kpts_witness :
    write_kpoints ([] : Assoc) =
      (["KPOINTS created by Atomic Simulation Environment\n", "None\n",
        "Cartesian\n"],
       some "KeyError: kpts") :=
  write_kpoints_missing_kpts [] rfl rfl rfl

/-- Counterexample to claim C5 as stated: `set(ispin=3)` on an empty store is
NOT a silent no-op — `set_ispin_dict` falls off the end of the Python
function and returns `None`, and `set`'s `kwargs.update(None)` then raises an
uncaught `TypeError`. -/
theorem set_ispin_three_errors :
    Vasp.set envEmpty [] [("ispin", Value.vInt 3)] =
      .error "TypeError: NoneType object is not iterable" :=
  rfl

/-- Claim C5 as amended: for every ispin value other than `None` and values
comparing `== 1` or `== 2` (Python `==`, so booleans promote), the expander
returns no change-dict (Python `None`), and `set` on that single keyword
consequently raises the `TypeError` from `dict.update(None)`; the store is
never reached by an update, but the call is an error rather than a silent
no-op. -/
theorem set_ispin_other_raises (env : Env) (params : Assoc) (v : Value)
    (h0 : v.isNoneV = false) (h1 : pyEqInt v 1 = false)
    (h2 : pyEqInt v 2 = false) :
    set_ispin_dict env params v = Option.none ∧
    Vasp.set env params [("ispin", v)] =
      .error "TypeError: NoneType object is not iterable" := by
  have hd : set_ispin_dict env params v = Option.none := by
    simp [set_ispin_dict, h0, h1, h2]
  refine ⟨hd, ?_⟩
  unfold Vasp.set
  simp [hasKey, alookup, hd]

/-- Witness for the amended C5 at the concrete value `ispin=3`. -/
theorem set_ispin_other_raises_witness :
    set_ispin_dict envEmpty [] (Value.vInt 3) = Option.none ∧
    Vasp.set envEmpty [] [("ispin", Value.vInt 3)] =
      .error "TypeError: NoneType object is not iterable" :=
  set_ispin_other_raises envEmpty [] (Value.vInt 3) rfl rfl rfl

/-- Claim C6 (the code contradicts it): the directive lines of `write_incar`
follow the iteration order of the Python set `set(parameters) -
set(special_kwargs)`, not the store's insertion order, so the bytes written
for one and the same store differ between the two set orders possible for a
two-key store (and string-hash randomization makes the realized order vary
across processes, defeating byte-identical re-creation). -/
theorem write_incar_order_dependent :
    write_incar ["sigma", "encut"]
        [("sigma", Value.vInt 1), ("encut", Value.vInt 400)] [] ≠
      write_incar ["encut", "sigma"]
        [("sigma", Value.vInt 1), ("encut", Value.vInt 400)] [] := by
  decide

/-- Counterexample to claim C7 as stated: the non-special key `rwigs` with a
per-species dict value renders through the RWIGS special case (per-species
lookup over `ppp_list`), not as the claim's space-joined iterable (which for
a dict would join its keys). -/
theorem write_incar_rwigs_breaks_claim :
    write_incar ["rwigs"] [("rwigs", Value.vDict [("Fe", Value.vInt 2)])]
        ["Fe"] =
      (["INCAR created by Atomic Simulation Environment\n", " RWIGS = 2\n"],
       Option.none) ∧
    claimLine "rwigs" (Value.vDict [("Fe", Value.vInt 2)]) =
      some " RWIGS = Fe\n" ∧
    (" RWIGS = 2\n" : String) ≠ " RWIGS = Fe\n" :=
  ⟨rfl, rfl, by decide⟩

theorem incarEntry_claimLine (ppp : List String) (k : String) (v : Value)
    (h : upperStr k ≠ "RWIGS") :
    incarEntry ppp k v = .ok (claimLine k v) := by
  cases v <;> simp [incarEntry, claimLine, h, incarValStr, claimRender]

theorem incarGo_claimLines (ppp : List String) (params : Assoc)
    (order : List String) (hrw : ∀ k ∈ order, upperStr k ≠ "RWIGS")
    (acc : List String) :
    incarGo ppp params acc order =
      (acc ++ order.filterMap
        (fun k => claimLine k ((alookup params k).getD Value.vNone)),
       Option.none) := by
  induction order generalizing acc with
  | nil => simp [incarGo]
  | cons k rest ih =>
    have hk := hrw k (List.mem_cons_self _ _)
    have hrest : ∀ k' ∈ rest, upperStr k' ≠ "RWIGS" :=
      fun k' h' => hrw k' (List.mem_cons_of_mem _ h')
    rw [incarGo, incarEntry_claimLine _ _ _ hk]
    cases hcl : claimLine k ((alookup params k).getD Value.vNone) with
    | none => simp [hcl, ih hrest]
    | some line => simp [hcl, ih hrest]

/-- Claim C7 as amended: for every store and every iteration order over keys
none of which upper-cases to `RWIGS`, the INCAR file is exactly the fixed
header followed by, for each iterated key in order, exactly the line
prescribed by the claim — `" KEY = value"` with the key upper-cased,
booleans as `.TRUE.`/`.FALSE.`, strings verbatim, other iterables
space-joined in order, other scalars via `str`, and removal-sentinel values
omitted entirely (`claimLine` is written from the claim's wording).  The
key `rwigs` is the one exception the counterexample forces. -/
theorem write_incar_renders (order : List String) (params : Assoc)
    (ppp : List String) (hrw : ∀ k ∈ order, upperStr k ≠ "RWIGS") :
    write_incar order params ppp =
      ("INCAR created by Atomic Simulation Environment\n"
        :: order.filterMap
          (fun k => claimLine k ((alookup params k).getD Value.vNone)),
       Option.none) := by
  rw [write_incar, incarGo_claimLines ppp params order hrw]
  simp

/-- Witness for the amended C7: a store with a boolean, a removal sentinel, a
list and an integer directive. -/
theorem write_incar_renders_witness :
    write_incar ["lwave", "magmom", "sigma", "encut"]
        [("lwave", Value.vBool true), ("magmom", Value.vNone),
         ("sigma", Value.vList [Value.vInt 1, Value.vInt 2]),
         ("encut", Value.vInt 400)] [] =
      (["INCAR created by Atomic Simulation Environment\n",
        " LWAVE = .TRUE.\n", " SIGMA = 1 2\n", " ENCUT = 400\n"],
       Option.none) :=
  write_incar_renders ["lwave", "magmom", "sigma", "encut"]
    [("lwave", Value.vBool true), ("magmom", Value.vNone),
     ("sigma", Value.vList [Value.vInt 1, Value.vInt 2]),
     ("encut", Value.vInt 400)] [] (by decide)

/-- Claim C8 (the code contradicts it): `set(ispin=2, magmom=[2])` on an
empty store stores the atoms-derived moments `[1]` (the expander's output
overwrites the explicit `magmom` keyword in `kwargs.update`, contradicting
the source's own comment that keyword magmoms are used), so repeating the
very same call on the resulting store changes `magmom` to `[2]` and returns
the non-empty ChangeSet `['magmom']` instead of an empty one. -/
theorem set_ispin_magmom_not_idempotent :
    Vasp.set envMagmom [] kwIspinMagmom =
      .ok (storeAfter1, ["ispin", "magmom", "lorbit"]) ∧
    Vasp.set envMagmom storeAfter1 kwIspinMagmom =
      .ok ([("ispin", Value.vInt 2), ("magmom", Value.vList [Value.vInt 2]),
            ("lorbit", Value.vInt 11)],
           ["magmom"]) :=
  ⟨rfl, rfl⟩

/-- Claim C9: for every input value (including `None`), `set_ldau_luj_dict`
raises the configuration-conflict error whenever `setups` is present in the
parameter store; the check is the first thing the expander does, so no
expansion output is produced. -/
theorem set_ldau_luj_setups_conflict (env : Env) (params : Assoc) (v : Value)
    (h : hasKey params "setups" = true) :
    set_ldau_luj_dict env params v =
      .error "setups and ldau_luj is not supported." := by
  simp [set_ldau_luj_dict, h]

/-- Witness for C9 at the concrete store `{setups: 'x'}` and value `None`. -/
theorem set_ldau_luj_setups_conflict_witness :
    set_ldau_luj_dict envEmpty [("setups", Value.vStr "x")] Value.vNone =
      .error "setups and ldau_luj is not supported." :=
  set_ldau_luj_setups_conflict envEmpty [("setups", Value.vStr "x")]
    Value.vNone rfl
